import Mathlib

/-!
# Verification of the choresOS recurring-assignment scheduling engine

Shallow embedding of the scheduling core of the `choresOS` repository
(`backend/services/recurrence.py`, `backend/services/rotation.py`,
`backend/services/assignment_generator.py`, the daily reset task in
`backend/main.py`, and the assignment lifecycle endpoints in
`backend/routers/chores.py`), together with theorems settling the frozen
claims about that core.

Modelling conventions:
* a Python `date` is an `Int`, its proleptic Gregorian ordinal
  (`date.fromordinal(1)` is a Monday, so `weekday d = (d - 1) % 7`);
* a Python `datetime` is an `Int` counting seconds, so that
  `(a - b).days = (a - b).fdiv 86400` matches `timedelta.days`
  (floor division);
* Python `float` multipliers are modelled as `ℚ`; `int(x)` is truncation
  toward zero (`pyInt`);
* database rows are Lean structures, the database is a structure of lists,
  and each endpoint is a function `DB → … → Except HTTPError DB`
  mirroring the SQLAlchemy queries as list filters.
-/

namespace ChoresOS

/-- Python `date.weekday()` for an ordinal day number: 0 = Monday. -/
def pyWeekday (d : Int) : Int := (d - 1) % 7

/-- Python `int(x)` on a rational: truncation toward zero. -/
def pyInt (q : ℚ) : Int := if 0 ≤ q then ⌊q⌋ else ⌈q⌉

/-- `Recurrence` enum from `backend/models.py`. -/
inductive Recurrence where
  | once | daily | weekly | fortnightly | custom
  deriving DecidableEq, BEq, Repr

/-- `RotationCadence` enum from `backend/models.py`. -/
inductive RotationCadence where
  | daily | weekly | fortnightly | monthly
  deriving DecidableEq, BEq, Repr

/-- `AssignmentStatus` enum from `backend/models.py`. -/
inductive AssignmentStatus where
  | pending | completed | verified | skipped
  deriving DecidableEq, BEq, Repr

/-- `PointType` enum from `backend/models.py` (the members the scheduler
core touches). -/
inductive PointType where
  | chore_complete | reward_redeem | bonus | adjustment | achievement
  | spin | event_multiplier
  deriving DecidableEq, BEq, Repr

/-- `backend/services/recurrence.py::should_create_on_day`.
`created_at_weekday` is the weekday of the chore's creation date and
`created_at_date` its ordinal (Python passes `None` in some legacy call
sites, hence the `Option`).  `//` in Python is floor division (`Int.fdiv`)
and `% 2` on a possibly negative quotient matches `Int.emod`. -/
def should_create_on_day (recurrence : Recurrence) (target_day : Int)
    (created_at_weekday : Int) (custom_days : Option (List Int))
    (created_at_date : Option Int) : Bool :=
  match recurrence with
  | .once => true
  | .daily => true
  | .weekly => pyWeekday target_day == created_at_weekday
  | .fortnightly =>
      if pyWeekday target_day != created_at_weekday then false
      else
        match created_at_date with
        | none => true
        | some c => ((target_day - c).fdiv 7) % 2 == 0
  | .custom =>
      match custom_days with
      | some ds => !ds.isEmpty && ds.contains (pyWeekday target_day)
      | none => false

/-- `ChoreRotation` row from `backend/models.py` (`chore_id`, `kid_ids`,
`cadence`, `current_index`, `last_rotated`); timestamps not read by the
scheduler are omitted. -/
structure ChoreRotation where
  chore_id : Int
  kid_ids : List Int
  cadence : RotationCadence
  current_index : Int
  last_rotated : Option Int
  deriving DecidableEq, BEq, Repr

/-- The `thresholds` dict in
`backend/services/rotation.py::should_advance_rotation`; every cadence
enum value is a key, so the `.get(cadence, 7)` default is unreachable. -/
def cadenceThreshold : RotationCadence → Int
  | .daily => 1
  | .weekly => 7
  | .fortnightly => 14
  | .monthly => 30

/-- `backend/services/rotation.py::should_advance_rotation`. -/
def should_advance_rotation (rotation : ChoreRotation) (now : Int) : Bool :=
  match rotation.last_rotated with
  | none => true
  | some lr =>
      cadenceThreshold rotation.cadence ≤ (now - lr).fdiv 86400

/-- `backend/services/rotation.py::advance_rotation`. -/
def advance_rotation (rotation : ChoreRotation) (now : Int) : ChoreRotation :=
  { rotation with
      current_index := (rotation.current_index + 1) % (rotation.kid_ids.length : Int)
      last_rotated := some now }

/-- `backend/services/rotation.py::_count_occurrences`: weekday
occurrences in the half-open range `(start, end]`, negative when
`end < start`.  `set(weekdays)` becomes `weekdays.dedup` (only its size
and membership are used). -/
def count_occurrences (start stop : Int) (weekdays : List Int) : Int :=
  if start = stop ∨ weekdays.isEmpty then 0
  else
    let forward := start ≤ stop
    let a := if forward then start else stop
    let b := if forward then stop else start
    let total_days := (b - a).toNat
    let full_weeks := total_days / 7
    let remaining := total_days % 7
    let wd_set := weekdays.dedup
    let extra := (List.range remaining).countP
      (fun i => wd_set.contains (pyWeekday (a + (i : Int) + 1)))
    let count := (full_weeks : Int) * (wd_set.length : Int) + (extra : Int)
    if forward then count else -count

/-- `backend/services/rotation.py::get_rotation_kid_for_day`.  The index
produced by `%` on a positive length is within bounds (the repository's
invariant is a non-empty member list), so the Python list indexing is
`List.getD` with an irrelevant default. -/
def get_rotation_kid_for_day (rotation : ChoreRotation)
    (target_day reference_day : Int)
    (active_weekdays : Option (List Int)) : Int :=
  if rotation.cadence == .daily then
    let offset :=
      match active_weekdays with
      | some ws => count_occurrences reference_day target_day ws
      | none => target_day - reference_day
    let idx := (rotation.current_index + offset) % (rotation.kid_ids.length : Int)
    rotation.kid_ids.getD idx.toNat 0
  else
    rotation.kid_ids.getD rotation.current_index.toNat 0

/-- `User` row from `backend/models.py`: the fields the scheduler core and
the lifecycle endpoints read or write. -/
structure User where
  id : Int
  points_balance : Int
  total_points_earned : Int
  current_streak : Int
  longest_streak : Int
  last_streak_date : Option Int
  deriving DecidableEq, BEq, Repr

/-- `Chore` row from `backend/models.py` (scheduler-relevant fields).
`created_at` is the ordinal of the creation date: the code only uses
`created_at.weekday()` and `created_at.date()`. -/
structure Chore where
  id : Int
  points : Int
  recurrence : Recurrence
  custom_days : Option (List Int)
  requires_photo : Bool
  is_active : Bool
  created_at : Int
  deriving DecidableEq, BEq, Repr

/-- `ChoreAssignmentRule` row from `backend/models.py`; unique per
`(chore_id, user_id)`. -/
structure ChoreAssignmentRule where
  id : Int
  chore_id : Int
  user_id : Int
  recurrence : Recurrence
  custom_days : Option (List Int)
  requires_photo : Bool
  is_active : Bool
  deriving DecidableEq, BEq, Repr

/-- `ChoreAssignment` row from `backend/models.py`; unique per
`(chore_id, user_id, date)`.  `updated_at` of a freshly generated row is
the wall-clock default, modelled as `0`. -/
structure ChoreAssignment where
  id : Int
  chore_id : Int
  user_id : Int
  date : Int
  status : AssignmentStatus
  completed_at : Option Int
  verified_at : Option Int
  verified_by : Option Int
  photo_proof_path : Option String
  updated_at : Int
  deriving DecidableEq, BEq, Repr

/-- `ChoreExclusion` row from `backend/models.py`: only the
`(chore_id, user_id, date)` tuple is ever read. -/
structure ChoreExclusion where
  chore_id : Int
  user_id : Int
  date : Int
  deriving DecidableEq, BEq, Repr

/-- `PointTransaction` row from `backend/models.py` (scheduler-relevant
fields; the free-text `description` is not read back by the core). -/
structure PointTransaction where
  user_id : Int
  amount : Int
  type : PointType
  reference_id : Option Int
  deriving DecidableEq, BEq, Repr

/-- `SeasonalEvent` row from `backend/models.py`; the `multiplier` float
is modelled as a rational. -/
structure SeasonalEvent where
  title : String
  multiplier : ℚ
  start_date : Int
  end_date : Int
  is_active : Bool
  deriving DecidableEq, BEq, Repr

/-- The relational store, as lists of rows.  `next_id` models the
autoincrement primary-key counter for `chore_assignments`. -/
structure DB where
  users : List User
  chores : List Chore
  rules : List ChoreAssignmentRule
  rotations : List ChoreRotation
  exclusions : List ChoreExclusion
  assignments : List ChoreAssignment
  transactions : List PointTransaction
  events : List SeasonalEvent
  next_id : Int
  deriving DecidableEq, BEq, Repr

/-- An HTTP-level rejection (`HTTPException(status_code, detail)` in
FastAPI; an unhandled exception such as `MultipleResultsFound` surfaces
as a 500). -/
structure HTTPError where
  status : Int
  detail : String
  deriving DecidableEq, BEq, Repr

/-- `backend/services/assignment_generator.py::_create_if_missing`
(idempotent create; the `(chore_id, user_id, date)` uniqueness constraint
makes the `scalar_one_or_none` query equivalent to an existence check). -/
def create_if_missing (db : DB) (chore_id user_id day : Int) : DB :=
  if db.assignments.any (fun a =>
      a.chore_id == chore_id && a.user_id == user_id && a.date == day) then db
  else
    { db with
        assignments := db.assignments ++
          [{ id := db.next_id, chore_id := chore_id, user_id := user_id,
             date := day, status := .pending, completed_at := none,
             verified_at := none, verified_by := none,
             photo_proof_path := none, updated_at := 0 }]
        next_id := db.next_id + 1 }

/-- `backend/services/assignment_generator.py::_get_legacy_user_ids`:
distinct user ids of past assignments of the chore. -/
def legacy_user_ids (db : DB) (chore_id : Int) : List Int :=
  ((db.assignments.filter (fun a => a.chore_id == chore_id)).map
    (fun a => a.user_id)).dedup

/-- Write back a mutated rotation row.  Rotations are loaded with
`scalar_one_or_none` on `chore_id` (at most one rotation per chore), so
replacing by `chore_id` updates exactly the loaded row. -/
def set_rotation (db : DB) (rot : ChoreRotation) : DB :=
  { db with rotations := db.rotations.map
              (fun x => if x.chore_id == rot.chore_id then rot else x) }

/-- Insertion into a sorted list, for Python's `sorted(...)`. -/
def insertSorted (x : Int) : List Int → List Int
  | [] => [x]
  | y :: ys => if x ≤ y then x :: y :: ys else y :: insertSorted x ys

/-- Python `sorted` on a list of ints. -/
def sortInts (l : List Int) : List Int := l.foldr insertSorted []

/-- Loop of
`backend/services/assignment_generator.py::_collect_active_weekdays`:
`none` is the early `return None` on a daily rule; the accumulator plays
the `weekdays` set (deduplicated at the end). -/
def collect_active_weekdays_go (created_wd : Int) :
    List ChoreAssignmentRule → List Int → Option (List Int)
  | [], acc => some acc
  | r :: rs, acc =>
      if r.recurrence == .once then collect_active_weekdays_go created_wd rs acc
      else if r.recurrence == .daily then none
      else if r.recurrence == .custom then
        match r.custom_days with
        | some ds =>
            if !ds.isEmpty then collect_active_weekdays_go created_wd rs (acc ++ ds)
            else collect_active_weekdays_go created_wd rs acc
        | none => collect_active_weekdays_go created_wd rs acc
      else collect_active_weekdays_go created_wd rs (acc ++ [created_wd])

/-- `backend/services/assignment_generator.py::_collect_active_weekdays`:
`sorted(weekdays) if weekdays else None`. -/
def collect_active_weekdays (rules : List ChoreAssignmentRule)
    (created_wd : Int) : Option (List Int) :=
  match collect_active_weekdays_go created_wd rules [] with
  | none => none
  | some acc =>
      let s := sortInts acc.dedup
      if s.isEmpty then none else some s

/-- `backend/services/assignment_generator.py::_generate_from_rules`.
`today` is Python's `date.today()` read inside the function. -/
def generate_from_rules (db : DB) (chore : Chore)
    (rules : List ChoreAssignmentRule) (rotation : Option ChoreRotation)
    (week_dates : List Int) (excl : List ChoreExclusion) (today : Int) : DB :=
  let active_weekdays :=
    if rotation.isSome then collect_active_weekdays rules (pyWeekday chore.created_at)
    else none
  rules.foldl
    (fun db1 rule =>
      if rule.recurrence == .once then db1
      else
        week_dates.foldl
          (fun db2 day =>
            if !(should_create_on_day rule.recurrence day
                  (pyWeekday chore.created_at) rule.custom_days
                  (some chore.created_at)) then db2
            else if (match rotation with
                     | some rot =>
                         !rot.kid_ids.isEmpty &&
                           rule.user_id !=
                             get_rotation_kid_for_day rot day today active_weekdays
                     | none => false) then db2
            else if excl.any (fun e =>
                e.chore_id == chore.id && e.user_id == rule.user_id &&
                  e.date == day) then db2
            else create_if_missing db2 chore.id rule.user_id day)
          db1)
    db

/-- `backend/services/assignment_generator.py::_generate_legacy`. -/
def generate_legacy (db : DB) (chore : Chore) (week_dates : List Int)
    (excl : List ChoreExclusion) : DB :=
  if chore.recurrence == .once then db
  else
    let rule_user_ids := (db.rules.filter (fun r =>
      r.chore_id == chore.id && r.is_active)).map (fun r => r.user_id)
    let user_ids :=
      if rule_user_ids.isEmpty then
        match (db.rotations.filter (fun r => r.chore_id == chore.id)).head? with
        | some rot =>
            if !rot.kid_ids.isEmpty then rot.kid_ids
            else legacy_user_ids db chore.id
        | none => legacy_user_ids db chore.id
      else rule_user_ids
    if user_ids.isEmpty then db
    else
      week_dates.foldl
        (fun db1 day =>
          if !(should_create_on_day chore.recurrence day
                (pyWeekday chore.created_at) chore.custom_days
                (some chore.created_at)) then db1
          else
            user_ids.foldl
              (fun db2 uid =>
                if excl.any (fun e =>
                    e.chore_id == chore.id && e.user_id == uid &&
                      e.date == day) then db2
                else create_if_missing db2 chore.id uid day)
              db1)
        db

/-- `backend/services/assignment_generator.py::auto_generate_week_assignments`
(the non-mutating weekly projection; `today` is `date.today()` used as the
rotation reference date). -/
def auto_generate_week_assignments (db : DB) (week_start today : Int) : DB :=
  let week_dates := (List.range 7).map (fun i => week_start + (i : Int))
  let excl := db.exclusions.filter (fun e =>
    decide (week_start ≤ e.date ∧ e.date ≤ week_start + 6))
  (db.chores.filter (fun c => c.is_active)).foldl
    (fun db0 chore =>
      let rules := db0.rules.filter (fun r =>
        r.chore_id == chore.id && r.is_active)
      if !rules.isEmpty then
        let rotation := (db0.rotations.filter (fun r =>
          r.chore_id == chore.id)).head?
        generate_from_rules db0 chore rules rotation week_dates excl today
      else generate_legacy db0 chore week_dates excl)
    db

/-- `backend/services/assignment_generator.py::generate_daily_assignments`
(the single-day commit pass of the services module, which advances
rotations; it does not consult `chore_exclusions`). -/
def generate_daily_assignments (db : DB) (today now : Int) : DB :=
  (db.chores.filter (fun c => c.is_active)).foldl
    (fun db0 chore =>
      let rules := db0.rules.filter (fun r =>
        r.chore_id == chore.id && r.is_active)
      if !rules.isEmpty then
        let rotation := (db0.rotations.filter (fun r =>
          r.chore_id == chore.id)).head?
        let created_wd := pyWeekday chore.created_at
        let active_rules := rules.filter (fun r =>
          r.recurrence != .once &&
            should_create_on_day r.recurrence today created_wd r.custom_days
              (some chore.created_at))
        let step := fun (rot? : Option ChoreRotation) (db1 : DB) =>
          active_rules.foldl
            (fun db2 rule =>
              match rot? with
              | some rot =>
                  if rule.user_id != rot.kid_ids.getD rot.current_index.toNat 0
                  then db2
                  else create_if_missing db2 chore.id rule.user_id today
              | none => create_if_missing db2 chore.id rule.user_id today)
            db1
        match rotation with
        | some rot =>
            if !active_rules.isEmpty && should_advance_rotation rot now then
              let rot' := advance_rotation rot now
              step (some rot') (set_rotation db0 rot')
            else step (some rot) db0
        | none => step none db0
      else
        if chore.recurrence == .once then db0
        else if !(should_create_on_day chore.recurrence today
                    (pyWeekday chore.created_at) chore.custom_days
                    (some chore.created_at)) then db0
        else
          match (db0.rotations.filter (fun r =>
            r.chore_id == chore.id)).head? with
          | some rot =>
              let rot' :=
                if should_advance_rotation rot now then advance_rotation rot now
                else rot
              let db1 :=
                if should_advance_rotation rot now then set_rotation db0 rot'
                else db0
              create_if_missing db1 chore.id
                (rot'.kid_ids.getD rot'.current_index.toNat 0) today
          | none =>
              (legacy_user_ids db0 chore.id).foldl
                (fun db1 uid => create_if_missing db1 chore.id uid today) db0)
    db

/-- The inline `should_advance` computation of `backend/main.py`'s
`daily_reset_task` (note: a daily cadence advances unconditionally, and
`days_since` uses `timedelta.days`, i.e. floor division by 86400 s). -/
def main_should_advance (rot : ChoreRotation) (now : Int) : Bool :=
  match rot.last_rotated with
  | none => true
  | some lr =>
      match rot.cadence with
      | .daily => true
      | .weekly => decide (7 ≤ (now - lr).fdiv 86400)
      | .fortnightly => decide (14 ≤ (now - lr).fdiv 86400)
      | .monthly => decide (30 ≤ (now - lr).fdiv 86400)

/-- The inline `should_generate` computation of `backend/main.py`'s
`daily_reset_task` (note: it has no `fortnightly` branch, so a
fortnightly recurrence never fires there). -/
def main_should_generate (recurrence : Recurrence)
    (custom_days : Option (List Int)) (today created_at : Int) : Bool :=
  match recurrence with
  | .daily => true
  | .weekly => pyWeekday today == pyWeekday created_at
  | .custom =>
      match custom_days with
      | some ds => !ds.isEmpty && ds.contains (pyWeekday today)
      | _ => false
  | _ => false

/-- The database work of one iteration of `backend/main.py`'s
`daily_reset_task` (the generation pass the scheduler actually runs; the
sleep loop, refresh-token query and error logging around it carry no
state relevant here).  In the per-rule branch the rotation is advanced
*before* any rule is checked for firing today, and `chore_exclusions` is
never consulted. -/
def daily_reset_pass (db : DB) (today now : Int) : DB :=
  (db.chores.filter (fun c => c.is_active)).foldl
    (fun db0 chore =>
      let rules := db0.rules.filter (fun r =>
        r.chore_id == chore.id && r.is_active)
      if !rules.isEmpty then
        let rotation := (db0.rotations.filter (fun r =>
          r.chore_id == chore.id)).head?
        let step := fun (rot? : Option ChoreRotation) (db1 : DB) =>
          rules.foldl
            (fun db2 rule =>
              if rule.recurrence == .once then db2
              else if (match rot? with
                       | some rot =>
                           rule.user_id !=
                             rot.kid_ids.getD rot.current_index.toNat 0
                       | none => false) then db2
              else if main_should_generate rule.recurrence rule.custom_days
                        today chore.created_at then
                create_if_missing db2 chore.id rule.user_id today
              else db2)
            db1
        match rotation with
        | some rot =>
            if main_should_advance rot now then
              let rot' : ChoreRotation :=
                { rot with
                    current_index :=
                      (rot.current_index + 1) % (rot.kid_ids.length : Int)
                    last_rotated := some now }
              step (some rot') (set_rotation db0 rot')
            else step (some rot) db0
        | none => step none db0
      else
        if chore.recurrence == .once then db0
        else if main_should_generate chore.recurrence chore.custom_days
                  today chore.created_at then
          match (db0.rotations.filter (fun r =>
            r.chore_id == chore.id)).head? with
          | some rot =>
              let rot' : ChoreRotation :=
                if main_should_advance rot now then
                  { rot with
                      current_index :=
                        (rot.current_index + 1) % (rot.kid_ids.length : Int)
                      last_rotated := some now }
                else rot
              let db1 :=
                if main_should_advance rot now then set_rotation db0 rot'
                else db0
              create_if_missing db1 chore.id
                (rot'.kid_ids.getD rot'.current_index.toNat 0) today
          | none =>
              (legacy_user_ids db0 chore.id).foldl
                (fun db1 uid => create_if_missing db1 chore.id uid today) db0
        else db0)
    db

/-- `backend/routers/chores.py::complete_chore`.  `file` is the optional
upload's size in bytes; photo persistence (content-type and max-size
validation, disk write, generated filename) is abstracted to recording
that a proof was stored.  A `scalar_one_or_none` query that matches more
than one row raises, surfacing as a 500. -/
def complete_chore (db : DB) (chore_id user_id : Int) (file : Option Int)
    (today now : Int) : Except HTTPError DB :=
  match db.assignments.filter (fun a =>
      a.chore_id == chore_id && a.user_id == user_id && a.date == today &&
        a.status == .pending) with
  | [] => .error ⟨404, "No pending assignment found for this chore today"⟩
  | [a] =>
      match db.chores.filter (fun c => c.id == chore_id) with
      | [chore] =>
          match db.rules.filter (fun r =>
              r.chore_id == chore_id && r.user_id == user_id && r.is_active) with
          | [] | [_] =>
              let requires_photo :=
                match db.rules.filter (fun r =>
                    r.chore_id == chore_id && r.user_id == user_id &&
                      r.is_active) with
                | [r] => r.requires_photo
                | _ => chore.requires_photo
              if requires_photo &&
                  (match file with | none => true | some sz => sz == 0) then
                .error ⟨400,
                  "Photo proof is required for this quest. Please attach a photo."⟩
              else
                let a1 :=
                  match file with
                  | some sz =>
                      if 0 < sz then { a with photo_proof_path := some "uploaded" }
                      else a
                  | none => a
                let a2 := { a1 with status := .completed,
                                    completed_at := some now, updated_at := now }
                .ok { db with assignments := db.assignments.map
                                (fun x => if x.id == a.id then a2 else x) }
          | _ => .error ⟨500, "Internal Server Error"⟩
      | _ => .error ⟨500, "Internal Server Error"⟩
  | _ => .error ⟨500, "Internal Server Error"⟩

/-- `backend/routers/chores.py::verify_chore`: awards the base entry and
the optional event-multiplier bonus entry, updates balance,
lifetime-earned and the streak fields, and deactivates the rule of a
one-time chore.  Achievement evaluation, notifications, websocket
fan-out and the avatar drop are external collaborators (spec §1) and
carry no state read by the claims. -/
def verify_chore (db : DB) (chore_id verifier_id : Int) (today now : Int) :
    Except HTTPError DB :=
  match db.assignments.filter (fun a =>
      a.chore_id == chore_id && a.date == today && a.status == .completed) with
  | [] =>
      .error ⟨404, "No completed assignment found to verify for this chore today"⟩
  | [a] =>
      match db.chores.filter (fun c => c.id == chore_id) with
      | [chore] =>
          let base_points := chore.points
          let a' := { a with status := .verified, verified_at := some now,
                             verified_by := some verifier_id, updated_at := now }
          let active_events := db.events.filter (fun e =>
            e.is_active && decide (e.start_date ≤ now ∧ now ≤ e.end_date))
          let multiplier : ℚ :=
            active_events.foldl (fun m e => m * e.multiplier) 1
          let base_tx : PointTransaction :=
            { user_id := a.user_id, amount := base_points,
              type := .chore_complete, reference_id := some a.id }
          let bonus_txs : List PointTransaction :=
            if 1 < multiplier then
              let bonus_points := pyInt ((base_points : ℚ) * multiplier) - base_points
              if 0 < bonus_points then
                [{ user_id := a.user_id, amount := bonus_points,
                   type := .event_multiplier, reference_id := some a.id }]
              else []
            else []
          let total_awarded := base_points + (bonus_txs.map (fun t => t.amount)).sum
          match db.users.filter (fun u => u.id == a.user_id) with
          | [kid] =>
              let kid1 : User := { kid with
                points_balance := kid.points_balance + total_awarded
                total_points_earned := kid.total_points_earned + total_awarded }
              let kid2 : User :=
                if kid1.last_streak_date == some today then kid1
                else if (match kid1.last_streak_date with
                         | some d => decide (today - d = 1)
                         | none => false) then
                  { kid1 with current_streak := kid1.current_streak + 1,
                              last_streak_date := some today }
                else
                  { kid1 with current_streak := 1, last_streak_date := some today }
              let kid3 :=
                if kid2.longest_streak < kid2.current_streak then
                  { kid2 with longest_streak := kid2.current_streak }
                else kid2
              let rules' :=
                if chore.recurrence == .once then
                  db.rules.map (fun r =>
                    if r.chore_id == chore_id && r.user_id == a.user_id &&
                        r.is_active then { r with is_active := false }
                    else r)
                else db.rules
              .ok { db with
                assignments := db.assignments.map
                  (fun x => if x.id == a.id then a' else x)
                transactions := db.transactions ++ base_tx :: bonus_txs
                users := db.users.map (fun u => if u.id == kid.id then kid3 else u)
                rules := rules' }
          | _ => .error ⟨500, "Internal Server Error"⟩
      | _ => .error ⟨500, "Internal Server Error"⟩
  | _ => .error ⟨500, "Internal Server Error"⟩

/-- `backend/routers/chores.py::uncomplete_chore`: deletes the award
ledger entries referencing the assignment, decrements the balance
clamped at zero (leaving `total_points_earned` untouched) and resets the
assignment to pending. -/
def uncomplete_chore (db : DB) (chore_id : Int) (today now : Int) :
    Except HTTPError DB :=
  match db.assignments.filter (fun a =>
      a.chore_id == chore_id && a.date == today &&
        (a.status == .completed || a.status == .verified)) with
  | [] =>
      .error ⟨404, "No completed assignment found to undo for this chore today"⟩
  | [a] =>
      let is_award_tx := fun (t : PointTransaction) =>
        t.user_id == a.user_id && t.reference_id == some a.id &&
          (t.type == .chore_complete || t.type == .event_multiplier)
      let total_deducted :=
        ((db.transactions.filter is_award_tx).map (fun t => t.amount)).sum
      match db.users.filter (fun u => u.id == a.user_id) with
      | [kid] =>
          let kid' := { kid with
            points_balance := max 0 (kid.points_balance - total_deducted) }
          let a' := { a with status := .pending, completed_at := none,
                             verified_at := none, verified_by := none,
                             updated_at := now }
          .ok { db with
            users := db.users.map (fun u => if u.id == kid.id then kid' else u)
            transactions := db.transactions.filter (fun t => !(is_award_tx t))
            assignments := db.assignments.map
              (fun x => if x.id == a.id then a' else x) }
      | _ => .error ⟨500, "Internal Server Error"⟩
  | _ => .error ⟨500, "Internal Server Error"⟩

/-- `backend/routers/chores.py::skip_chore`. -/
def skip_chore (db : DB) (chore_id : Int) (today now : Int) :
    Except HTTPError DB :=
  match db.assignments.filter (fun a =>
      a.chore_id == chore_id && a.date == today && a.status == .pending) with
  | [] => .error ⟨404, "No pending assignment found to skip for this chore today"⟩
  | [a] =>
      let a' := { a with status := .skipped, updated_at := now }
      .ok { db with assignments := db.assignments.map
                      (fun x => if x.id == a.id then a' else x) }
  | _ => .error ⟨500, "Internal Server Error"⟩

/-! ## Observation helpers and concrete fixtures -/

/-- Observation: each user's `points_balance`, in row order. -/
def userBalanceList (db : DB) : List Int :=
  db.users.map (fun u => u.points_balance)

/-- Observation: each user's `total_points_earned`, in row order. -/
def userEarnedList (db : DB) : List Int :=
  db.users.map (fun u => u.total_points_earned)

/-- Observation: each user's streak fields
`(current_streak, longest_streak, last_streak_date)`, in row order. -/
def userStreakList (db : DB) : List (Int × Int × Option Int) :=
  db.users.map (fun u => (u.current_streak, u.longest_streak, u.last_streak_date))

/-- Observation: does an assignment row for `(chore, user, date)` exist. -/
def hasAssignment (db : DB) (chore_id user_id day : Int) : Bool :=
  db.assignments.any (fun a =>
    a.chore_id == chore_id && a.user_id == user_id && a.date == day)

/-- Product of a list of multipliers, as `verify_chore` folds it. -/
def multiplier_product (mults : List ℚ) : ℚ := mults.foldl (· * ·) 1

/-- The total `verify_chore` awards for base points `p` under multiplier
`mult`: the base entry plus the bonus entry when `1 < mult` and the
truncated difference is positive (the code's arithmetic, verbatim). -/
def award_total (p : Int) (mult : ℚ) : Int :=
  p + (if 1 < mult then
         (if 0 < pyInt ((p : ℚ) * mult) - p then pyInt ((p : ℚ) * mult) - p
          else 0)
       else 0)

/-- Modelled from the spec (§4.5 streak update rule), for comparison with
the code: if `lastStreakDate = today` nothing changes; else if it was
yesterday the streak increments; else it resets to 1; the date is set to
today; the longest streak is raised whenever the current one exceeds it.
Returns `(current_streak, longest_streak, last_streak_date)`. -/
def streakUpdateSpec (cs ls : Int) (lsd : Option Int) (today : Int) :
    Int × Int × Option Int :=
  let cs' := if lsd = some today then cs
             else if lsd = some (today - 1) then cs + 1
             else 1
  let lsd' := if lsd = some today then lsd else some today
  (cs', max ls cs', lsd')

/-- Parametric one-kid fixture: user 7 with the given balance, lifetime
earned and streak fields. -/
def famKid (b e cs ls : Int) (lsd : Option Int) : User := ⟨7, b, e, cs, ls, lsd⟩

/-- Parametric fixture: chore 1, daily, no photo requirement, created on
ordinal day 1 (a Monday), worth `p` points. -/
def famChore (p : Int) : Chore := ⟨1, p, .daily, none, false, true, 1⟩

/-- Parametric fixture: assignment 10 of chore 1 to user 7 on day `d`. -/
def famAsg (d : Int) (st : AssignmentStatus) : ChoreAssignment :=
  ⟨10, 1, 7, d, st, none, none, none, none, 0⟩

/-- Parametric fixture: an active seasonal event with multiplier `m`
whose window `[0, 1000]` contains the verification instant used below. -/
def famEvent (m : ℚ) : SeasonalEvent := ⟨"event", m, 0, 1000, true⟩

/-- Parametric fixture database: one kid, one chore, one assignment on
day 100, one event per multiplier in `mults`, empty ledger. -/
def famDB (b e cs ls : Int) (lsd : Option Int) (p : Int)
    (st : AssignmentStatus) (mults : List ℚ) : DB :=
  ⟨[famKid b e cs ls lsd], [famChore p], [], [], [],
   [famAsg 100 st], [], mults.map famEvent, 11⟩

/-- Fixture for the exclusion claims: chore 1 has an active daily rule
for user 7 and an exclusion row for `(1, 7, 100)`; no assignments yet. -/
def exclDB : DB :=
  ⟨[famKid 0 0 0 0 none], [famChore 20], [⟨20, 1, 7, .daily, none, false, true⟩],
   [], [⟨1, 7, 100⟩], [], [], [], 11⟩

/-- Fixture for the rotation-advance claim: chore 1 has one active rule
firing only on Mondays (weekday 0) and a daily-cadence rotation over
kids `[7, 8]` that has never advanced. -/
def rotDB : DB :=
  ⟨[famKid 0 0 0 0 none], [famChore 20],
   [⟨21, 1, 7, .custom, some [0], false, true⟩],
   [⟨1, [7, 8], .daily, 0, none⟩], [], [], [], [], 11⟩

/-- The rotation of the §8 daily-fairness example: members
`[101, 102, 103]` (A, B, C), daily cadence, `current_index = 0`. -/
def fairnessRotation : ChoreRotation := ⟨1, [101, 102, 103], .daily, 0, none⟩

/-- Fixture with a *pending* assignment for chore 1 today (the wrong
state for `verify`). -/
def pendingDB : DB :=
  ⟨[famKid 0 0 0 0 none], [famChore 20], [], [], [],
   [famAsg 100 .pending], [], [], 11⟩

/-- Fixture with no assignment at all for chore 1 (the genuine
not-found case). -/
def emptyDB : DB :=
  ⟨[famKid 0 0 0 0 none], [famChore 20], [], [], [], [], [], [], 11⟩

/-- Fixture whose chore requires photo proof, with a pending
assignment. -/
def photoDB : DB :=
  ⟨[famKid 0 0 0 0 none], [⟨1, 20, .daily, none, true, true, 1⟩], [], [], [],
   [famAsg 100 .pending], [], [], 11⟩

/-- Fixture on which every lifecycle operation has a legal target:
chore 1's assignment is completed (for `verify`/`uncomplete`), chore 2's
is pending (for `complete`/`skip`). -/
def lifecycleDB : DB :=
  ⟨[famKid 5 9 0 0 none], [famChore 20, ⟨2, 3, .daily, none, false, true, 1⟩],
   [], [], [],
   [famAsg 100 .completed, ⟨12, 2, 7, 100, .pending, none, none, none, none, 0⟩],
   [], [], 13⟩

/-- `complete_chore` outcome on `lifecycleDB` (chore 2). -/
def lifecycleDBCompleted : DB :=
  match complete_chore lifecycleDB 2 7 (some 1) 100 500 with
  | .ok d => d
  | .error _ => lifecycleDB

/-- `skip_chore` outcome on `lifecycleDB` (chore 2). -/
def lifecycleDBSkipped : DB :=
  match skip_chore lifecycleDB 2 100 500 with
  | .ok d => d
  | .error _ => lifecycleDB

/-- `verify_chore` outcome on `lifecycleDB` (chore 1). -/
def lifecycleDBVerified : DB :=
  match verify_chore lifecycleDB 1 2 100 500 with
  | .ok d => d
  | .error _ => lifecycleDB

/-- `uncomplete_chore` outcome on `lifecycleDB` (chore 1). -/
def lifecycleDBUndone : DB :=
  match uncomplete_chore lifecycleDB 1 100 500 with
  | .ok d => d
  | .error _ => lifecycleDB

instance instDecEqExcept {ε α : Type} [DecidableEq ε] [DecidableEq α] :
    DecidableEq (Except ε α) := fun a b =>
  match a, b with
  | .error e, .error f =>
      if h : e = f then isTrue (by rw [h])
      else isFalse (fun hh => h (by cases hh; rfl))
  | .error _, .ok _ => isFalse (fun hh => Except.noConfusion hh)
  | .ok _, .error _ => isFalse (fun hh => Except.noConfusion hh)
  | .ok x, .ok y =>
      if h : x = y then isTrue (by rw [h])
      else isFalse (fun hh => h (by cases hh; rfl))

/-- Observation: the endpoint rejected the request (no state returned). -/
def isRejected : Except HTTPError DB → Bool
  | .error _ => true
  | .ok _ => false

instance : LawfulBEq AssignmentStatus where
  eq_of_beq {a b} h := by
    cases a <;> cases b <;> first | rfl | exact absurd h (by decide)
  rfl {a} := by cases a <;> rfl

instance : LawfulBEq Recurrence where
  eq_of_beq {a b} h := by
    cases a <;> cases b <;> first | rfl | exact absurd h (by decide)
  rfl {a} := by cases a <;> rfl

instance : LawfulBEq RotationCadence where
  eq_of_beq {a b} h := by
    cases a <;> cases b <;> first | rfl | exact absurd h (by decide)
  rfl {a} := by cases a <;> rfl

instance : LawfulBEq PointType where
  eq_of_beq {a b} h := by
    cases a <;> cases b <;> first | rfl | exact absurd h (by decide)
  rfl {a} := by cases a <;> rfl

/-- `famDB` after `complete_chore` on chore 1 (assignment stamped
completed with the stored photo proof). -/
def famDB1 (b e cs ls : Int) (lsd : Option Int) (p : Int) (mults : List ℚ) : DB :=
  ⟨[famKid b e cs ls lsd], [famChore p], [], [], [],
   [⟨10, 1, 7, 100, .completed, some 500, none, none, some "uploaded", 500⟩],
   [], mults.map famEvent, 11⟩

/-- The bonus amount `verify_chore` computes:
`int(base_points * multiplier) - base_points`. -/
def bonus_amount (p : Int) (mult : ℚ) : Int := pyInt ((p : ℚ) * mult) - p

/-- The bonus ledger entries `verify_chore` writes for assignment 10 of
user 7: one entry iff the multiplier exceeds 1 and the bonus is
positive. -/
def famBonusTxs (p : Int) (mult : ℚ) : List PointTransaction :=
  if 1 < mult then
    if 0 < bonus_amount p mult then
      [⟨7, bonus_amount p mult, .event_multiplier, some 10⟩]
    else []
  else []

/-- The total `verify_chore` awards: base plus the bonus entries. -/
def famTotal (p : Int) (mult : ℚ) : Int :=
  p + ((famBonusTxs p mult).map (fun t => t.amount)).sum

/-- The kid row after `verify_chore` on day 100 awards total `T`:
balance and lifetime-earned incremented, then the streak update of the
code, verbatim. -/
def famKidVerified (b e cs ls : Int) (lsd : Option Int) (T : Int) : User :=
  let kid1 : User := ⟨7, b + T, e + T, cs, ls, lsd⟩
  let kid2 : User :=
    if kid1.last_streak_date == some 100 then kid1
    else if (match kid1.last_streak_date with
             | some d => decide ((100 : Int) - d = 1)
             | none => false) then
      { kid1 with current_streak := kid1.current_streak + 1,
                  last_streak_date := some 100 }
    else { kid1 with current_streak := 1, last_streak_date := some 100 }
  if kid2.longest_streak < kid2.current_streak then
    { kid2 with longest_streak := kid2.current_streak }
  else kid2

/-- `famDB1` after `verify_chore` by approver 2 at instant 500. -/
def famDB2 (b e cs ls : Int) (lsd : Option Int) (p : Int) (mults : List ℚ) : DB :=
  ⟨[famKidVerified b e cs ls lsd (famTotal p (multiplier_product mults))],
   [famChore p], [], [], [],
   [⟨10, 1, 7, 100, .verified, some 500, some 500, some 2, some "uploaded", 500⟩],
   ⟨7, p, .chore_complete, some 10⟩ :: famBonusTxs p (multiplier_product mults),
   mults.map famEvent, 11⟩

/-- `famDB` (with a completed assignment) after `verify_chore` by
approver 2 at instant 500. -/
def famDB2c (b e cs ls : Int) (lsd : Option Int) (p : Int) (mults : List ℚ) : DB :=
  ⟨[famKidVerified b e cs ls lsd (famTotal p (multiplier_product mults))],
   [famChore p], [], [], [],
   [⟨10, 1, 7, 100, .verified, none, some 500, some 2, none, 500⟩],
   ⟨7, p, .chore_complete, some 10⟩ :: famBonusTxs p (multiplier_product mults),
   mults.map famEvent, 11⟩

/-! ## Theorems -/

theorem famKidVerified_id (b e cs ls : Int) (lsd : Option Int) (T : Int) :
    (famKidVerified b e cs ls lsd T).id = 7 := by
  unfold famKidVerified
  dsimp only
  repeat' split
  all_goals rfl

theorem famKidVerified_balance (b e cs ls : Int) (lsd : Option Int) (T : Int) :
    (famKidVerified b e cs ls lsd T).points_balance = b + T := by
  unfold famKidVerified
  dsimp only
  repeat' split
  all_goals rfl

theorem famKidVerified_earned (b e cs ls : Int) (lsd : Option Int) (T : Int) :
    (famKidVerified b e cs ls lsd T).total_points_earned = e + T := by
  unfold famKidVerified
  dsimp only
  repeat' split
  all_goals rfl

theorem multiplier_product_nonneg (mults : List ℚ) (hm : ∀ m ∈ mults, 0 ≤ m) :
    0 ≤ multiplier_product mults := by
  unfold multiplier_product
  have h : ∀ (l : List ℚ) (i : ℚ), 0 ≤ i → (∀ m ∈ l, 0 ≤ m) →
      0 ≤ l.foldl (· * ·) i := by
    intro l
    induction l with
    | nil => intro i hi _; exact hi
    | cons x xs ih =>
        intro i hi hall
        rw [List.foldl_cons]
        exact ih _ (mul_nonneg hi (hall x (List.mem_cons_self x xs)))
          (fun m hm2 => hall m (List.mem_cons_of_mem _ hm2))
  exact h mults 1 zero_le_one hm

theorem complete_famDB (b e cs ls : Int) (lsd : Option Int) (p : Int)
    (mults : List ℚ) :
    complete_chore (famDB b e cs ls lsd p .pending mults) 1 7 (some 1) 100 500
      = .ok (famDB1 b e cs ls lsd p mults) := rfl

theorem verify_famDB1 (b e cs ls : Int) (lsd : Option Int) (p : Int)
    (mults : List ℚ) :
    verify_chore (famDB1 b e cs ls lsd p mults) 1 2 100 500
      = .ok (famDB2 b e cs ls lsd p mults) := by
  have hcomp : ((fun e => e.is_active &&
      (decide (e.start_date ≤ (500 : Int)) && decide ((500 : Int) ≤ e.end_date)))
        ∘ famEvent) = fun _ : ℚ => true := by
    funext m; simp [famEvent, Function.comp]
  have hfold : List.foldl (fun x y : ℚ => x * y) 1 mults
      = multiplier_product mults := rfl
  simp [verify_chore, famDB1, famDB2, famKidVerified, famBonusTxs, famTotal,
    bonus_amount, famChore, famKid, famEvent, hcomp, hfold,
    List.filter_map, List.filter_true, List.foldl_map]

theorem uncomplete_famDB2 (b e cs ls : Int) (lsd : Option Int) (p : Int)
    (mults : List ℚ) (hb : 0 ≤ b) :
    (uncomplete_chore (famDB2 b e cs ls lsd p mults) 1 100 600).map
        (fun d => (userBalanceList d, userEarnedList d,
          d.transactions.filter (fun t => t.reference_id == some 10)))
      = .ok ([b], [e + award_total p (multiplier_product mults)], []) := by
  by_cases h1 : 1 < multiplier_product mults
  · by_cases h2 : 0 < bonus_amount p (multiplier_product mults)
    · have hB : famBonusTxs p (multiplier_product mults)
          = [⟨7, bonus_amount p (multiplier_product mults),
              .event_multiplier, some 10⟩] := by
        simp [famBonusTxs, h1, h2]
      simp only [bonus_amount] at h2
      simp [uncomplete_chore, famDB2, hB, famTotal, famChore, famEvent,
        Except.map, userBalanceList, userEarnedList, award_total,
        bonus_amount, famKidVerified_id, famKidVerified_balance,
        famKidVerified_earned, hb, h1, h2]
    · have hB : famBonusTxs p (multiplier_product mults) = [] := by
        simp [famBonusTxs, h1, h2]
      simp only [bonus_amount] at h2
      simp [uncomplete_chore, famDB2, hB, famTotal, famChore, famEvent,
        Except.map, userBalanceList, userEarnedList, award_total,
        bonus_amount, famKidVerified_id, famKidVerified_balance,
        famKidVerified_earned, hb, h1, h2]
  · have hB : famBonusTxs p (multiplier_product mults) = [] := by
      simp [famBonusTxs, h1]
    simp [uncomplete_chore, famDB2, hB, famTotal, famChore, famEvent,
      Except.map, userBalanceList, userEarnedList, award_total,
      bonus_amount, famKidVerified_id, famKidVerified_balance,
      famKidVerified_earned, hb, h1]

/-- C7: on verify with active seasonal multipliers, exactly one base
ledger entry of `basePoints` is appended, and a second bonus entry of
`⌊basePoints * multiplier⌋ - basePoints` is appended iff the multiplier
product exceeds 1 and that difference is positive (the multipliers
compound multiplicatively; the instance of the witness is two 1.25
events with 20 base points yielding a bonus of 11). -/
theorem verify_award_entries (b e cs ls : Int) (lsd : Option Int) (p : Int)
    (mults : List ℚ) (hp : 0 ≤ p) (hm : ∀ m ∈ mults, 0 ≤ m) :
    (verify_chore (famDB b e cs ls lsd p .completed mults) 1 2 100 500).map
        (fun d => d.transactions)
      = .ok ([{ user_id := 7, amount := p, type := .chore_complete,
                reference_id := some 10 }] ++
          (if 1 < multiplier_product mults ∧
              0 < ⌊(p : ℚ) * multiplier_product mults⌋ - p then
            [{ user_id := 7,
               amount := ⌊(p : ℚ) * multiplier_product mults⌋ - p,
               type := .event_multiplier, reference_id := some 10 }]
          else [])) := by
  have hpyInt : pyInt ((p : ℚ) * multiplier_product mults)
      = ⌊(p : ℚ) * multiplier_product mults⌋ := by
    unfold pyInt
    rw [if_pos]
    exact mul_nonneg (by exact_mod_cast hp) (multiplier_product_nonneg mults hm)
  have hcomp : ((fun e => e.is_active &&
      (decide (e.start_date ≤ (500 : Int)) && decide ((500 : Int) ≤ e.end_date)))
        ∘ famEvent) = fun _ : ℚ => true := by
    funext m; simp [famEvent, Function.comp]
  have hfold : List.foldl (fun x y : ℚ => x * y) 1 mults
      = multiplier_product mults := rfl
  simp [verify_chore, famDB, famAsg, famChore, famKid, famEvent,
    List.filter_map, hcomp, List.filter_true, List.foldl_map, hfold, hpyInt,
    Except.map]
  by_cases h1 : 1 < multiplier_product mults
  · by_cases h2 : p < ⌊(p : ℚ) * multiplier_product mults⌋
    · simp [h1, h2]
    · simp [h1, h2]
  · simp [h1]

/-- C7 witness: two simultaneously active 1.25 events and 20 base points
give the base entry of 20 and a bonus entry of exactly
`⌊20 × 1.5625⌋ − 20 = 11`. -/
theorem verify_award_entries_witness :
    (verify_chore (famDB 0 0 0 0 none 20 .completed [5/4, 5/4]) 1 2 100 500).map
        (fun d => d.transactions)
      = .ok [{ user_id := 7, amount := 20, type := .chore_complete,
               reference_id := some 10 },
             { user_id := 7, amount := 11, type := .event_multiplier,
               reference_id := some 10 }] := by
  have h := verify_award_entries 0 0 0 0 none 20 [5/4, 5/4] (by norm_num)
    (by intro m hm; fin_cases hm <;> norm_num)
  rw [h]
  norm_num [multiplier_product, List.foldl_cons, List.foldl_nil]

/-- C5 (counterexample): complete → verify → uncomplete does *not*
restore `total_points_earned`: starting from lifetime earned 0 with a
20-point chore and no events, the sequence ends with lifetime earned 20
(the code deliberately never decrements it). -/
theorem reversal_counterexample :
    userEarnedList (famDB 0 0 0 0 none 20 .pending []) = [0] ∧
      (((complete_chore (famDB 0 0 0 0 none 20 .pending []) 1 7 (some 1)
            100 500).bind
          (fun d => verify_chore d 1 2 100 500)).bind
          (fun d => uncomplete_chore d 1 100 600)).map userEarnedList
        = .ok [20] := by
  decide

/-- C5 (amended): complete → verify → uncomplete restores the person's
`points_balance` exactly (clamping never fires since the deduction
equals the award) and leaves no ledger entry referencing the
assignment's id, but `total_points_earned` is *not* restored: it remains
higher by the awarded amount (base plus any event bonus). -/
theorem reversal_restores_balance_not_lifetime (b e cs ls : Int)
    (lsd : Option Int) (p : Int) (mults : List ℚ) (hb : 0 ≤ b) :
    (((complete_chore (famDB b e cs ls lsd p .pending mults) 1 7 (some 1)
          100 500).bind
        (fun d => verify_chore d 1 2 100 500)).bind
        (fun d => uncomplete_chore d 1 100 600)).map
        (fun d => (userBalanceList d, userEarnedList d,
          d.transactions.filter (fun t => t.reference_id == some 10)))
      = .ok ([b], [e + award_total p (multiplier_product mults)], []) := by
  rw [complete_famDB]
  simp only [Except.bind]
  rw [verify_famDB1]
  simp only [Except.bind]
  exact uncomplete_famDB2 b e cs ls lsd p mults hb

/-- C5 witness: at balance 5, lifetime earned 9, a 20-point chore and
two 1.25 events, the sequence returns the balance to 5, leaves no
ledger entry for the assignment, and leaves lifetime earned at
9 + 31 = 40. -/
theorem reversal_restores_balance_not_lifetime_witness :
    (((complete_chore (famDB 5 9 0 0 none 20 .pending [5/4, 5/4]) 1 7 (some 1)
          100 500).bind
        (fun d => verify_chore d 1 2 100 500)).bind
        (fun d => uncomplete_chore d 1 100 600)).map
        (fun d => (userBalanceList d, userEarnedList d,
          d.transactions.filter (fun t => t.reference_id == some 10)))
      = .ok ([5], [9 + award_total 20 (multiplier_product [5/4, 5/4])], []) :=
  reversal_restores_balance_not_lifetime 5 9 0 0 none 20 [5/4, 5/4]
    (by norm_num)

theorem rotations_create_if_missing (db : DB) (c u d : Int) :
    (create_if_missing db c u d).rotations = db.rotations := by
  unfold create_if_missing; split <;> rfl

theorem rotations_foldl {α : Type} (f : DB → α → DB)
    (h : ∀ d a, (f d a).rotations = d.rotations) :
    ∀ (l : List α) (db : DB), (l.foldl f db).rotations = db.rotations := by
  intro l
  induction l with
  | nil => intro db; rfl
  | cons x xs ih => intro db; rw [List.foldl_cons, ih, h]

theorem rotations_generate_from_rules (db : DB) (chore : Chore)
    (rules : List ChoreAssignmentRule) (rotation : Option ChoreRotation)
    (week_dates : List Int) (excl : List ChoreExclusion) (today : Int) :
    (generate_from_rules db chore rules rotation week_dates excl today).rotations
      = db.rotations := by
  unfold generate_from_rules
  apply rotations_foldl
  intro d rule
  split
  · rfl
  · apply rotations_foldl
    intro d2 day
    repeat' split
    all_goals first | rfl | exact rotations_create_if_missing _ _ _ _

theorem rotations_generate_legacy (db : DB) (chore : Chore)
    (week_dates : List Int) (excl : List ChoreExclusion) :
    (generate_legacy db chore week_dates excl).rotations = db.rotations := by
  unfold generate_legacy
  dsimp only
  repeat' split
  all_goals first
    | rfl
    | (apply rotations_foldl; intro d day; repeat' split
       all_goals first
         | rfl
         | (apply rotations_foldl; intro d2 uid; repeat' split
            all_goals first | rfl | exact rotations_create_if_missing _ _ _ _))

theorem rotations_auto_week (db : DB) (ws today : Int) :
    (auto_generate_week_assignments db ws today).rotations = db.rotations := by
  unfold auto_generate_week_assignments
  apply rotations_foldl
  intro d chore
  dsimp only
  split
  · exact rotations_generate_from_rules _ _ _ _ _ _ _
  · exact rotations_generate_legacy _ _ _ _

/-- C4: the weekly projection pass never mutates rotation state — for
every database and every sequence of `auto_generate_week_assignments`
calls (arbitrary week starts and reference dates, so target dates before
or after the reference alike), the `rotations` table afterwards is
pointwise the one before, in particular every `current_index` and
`last_rotated`.  (`get_rotation_kid_for_day` itself is a pure function of
the rotation row, so a projection read cannot mutate it by
construction.) -/
theorem projection_preserves_rotation_state (db : DB)
    (calls : List (Int × Int)) :
    (calls.foldl
      (fun d c => auto_generate_week_assignments d c.1 c.2) db).rotations
      = db.rotations := by
  apply rotations_foldl
  intro d c
  exact rotations_auto_week _ _ _

/-- C10: the daily-cadence occurrence counter is antisymmetric
(`count(a,b,w) = -count(b,a,w)`), zero on equal endpoints and zero on an
empty weekday list, so projecting backward in time is consistent with
projecting forward. -/
theorem occurrence_count_antisymm (a b : Int) (w : List Int) :
    count_occurrences a b w = -(count_occurrences b a w) ∧
      count_occurrences a a w = 0 ∧
      count_occurrences a b [] = 0 := by
  refine ⟨?_, by simp [count_occurrences], by simp [count_occurrences]⟩
  by_cases hab : a = b
  · subst hab; simp [count_occurrences]
  · by_cases hw : w.isEmpty
    · simp [count_occurrences, hw]
    · rcases lt_trichotomy a b with h | h | h
      · simp [count_occurrences, hab, Ne.symm hab, hw, le_of_lt h,
              not_le.mpr h]
      · exact absurd h hab
      · simp [count_occurrences, hab, Ne.symm hab, hw, le_of_lt h,
              not_le.mpr h]

/-- C2 (counterexample): for members `[101, 102, 103]` (A, B, C),
`current_index = 0`, daily cadence, active weekdays `{Mon, Wed, Fri}`,
reference day 1 (a Monday) and target day 3 (the following Wednesday),
the projection does *not* yield member index 2 (C = 103): occurrences
are counted in the half-open range `(reference, target]`, which contains
only the Wednesday itself. -/
theorem fairness_example_counterexample :
    pyWeekday 1 = 0 ∧ pyWeekday 3 = 2 ∧
      get_rotation_kid_for_day fairnessRotation 3 1 (some [0, 2, 4]) ≠ 103 := by
  decide

/-- C2 (amended): in that configuration the following Wednesday is the
1st occurrence after the Monday reference, so the projection yields the
member at index `(0 + 1) % 3 = 1`, i.e. B = 102. -/
theorem fairness_example_amended :
    count_occurrences 1 3 [0, 2, 4] = 1 ∧
      get_rotation_kid_for_day fairnessRotation 3 1 (some [0, 2, 4]) = 102 := by
  decide

/-- C1: the daily commit passes do not apply exclusion suppression.  On
`exclDB` — chore 1 with an active daily rule for user 7 and an exclusion
row `(1, 7, 100)` — both `generate_daily_assignments` and the
`daily_reset_task` body create the assignment for the excluded slot,
while the weekly projection pass (which the claim says shares the same
logic) correctly suppresses it. -/
theorem commit_ignores_exclusions :
    exclDB.exclusions.contains ⟨1, 7, 100⟩ = true ∧
      hasAssignment exclDB 1 7 100 = false ∧
      hasAssignment (generate_daily_assignments exclDB 100 500) 1 7 100 = true ∧
      hasAssignment (daily_reset_pass exclDB 100 500) 1 7 100 = true ∧
      hasAssignment (auto_generate_week_assignments exclDB 100 100) 1 7 100
        = false := by
  decide

/-- C3: the live daily reset pass advances a rotation on a day on which
no rule of the task fires.  On `rotDB` — one active rule firing only on
Mondays, a daily-cadence rotation over `[7, 8]` at index 0 — running the
`daily_reset_task` body on day 2 (a Tuesday, on which no rule fires and
no assignment is created) still advances `current_index` to 1, whereas
the services-module commit pass `generate_daily_assignments` (whose
docstring states the occurrence-gating requirement) leaves the rotation
untouched. -/
theorem reset_advances_without_occurrence :
    (rotDB.rules.all (fun r =>
        !(should_create_on_day r.recurrence 2 (pyWeekday 1)
            r.custom_days (some 1)))) = true ∧
      (daily_reset_pass rotDB 2 500).rotations
        = [⟨1, [7, 8], .daily, 1, some 500⟩] ∧
      (daily_reset_pass rotDB 2 500).assignments = [] ∧
      (generate_daily_assignments rotDB 2 500).rotations = rotDB.rotations := by
  decide

/-- C9 (counterexample): a lifecycle operation attempted from the wrong
state is *not* distinguishable from the not-found case — verifying a
chore whose assignment today is still `pending` produces exactly the
same 404 rejection as verifying a chore with no assignment at all. -/
theorem state_conflict_counterexample :
    verify_chore pendingDB 1 2 100 500 =
        .error ⟨404,
          "No completed assignment found to verify for this chore today"⟩ ∧
      verify_chore emptyDB 1 2 100 500 =
        .error ⟨404,
          "No completed assignment found to verify for this chore today"⟩ := by
  decide

/-- C9 (amended): a wrong-state lifecycle attempt is rejected before any
mutation, but with the *same* not-found signal (status 404) as a missing
assignment; only the photo-proof violation gets its own distinct signal
(status 400, a specific proof-required message), distinguishable from
not-found. -/
theorem rejection_signals_amended :
    verify_chore pendingDB 1 2 100 500 = verify_chore emptyDB 1 2 100 500 ∧
      isRejected (verify_chore pendingDB 1 2 100 500) = true ∧
      complete_chore photoDB 1 7 none 100 500 =
        .error ⟨400,
          "Photo proof is required for this quest. Please attach a photo."⟩ ∧
      (400 : Int) ≠ 404 := by
  decide



theorem famKidVerified_streak (b e cs ls : Int) (lsd : Option Int) (T : Int) :
    ((famKidVerified b e cs ls lsd T).current_streak,
     (famKidVerified b e cs ls lsd T).longest_streak,
     (famKidVerified b e cs ls lsd T).last_streak_date)
      = streakUpdateSpec cs ls lsd 100 := by
  rcases lsd with _ | d
  · simp [famKidVerified, streakUpdateSpec, max_def]
    split_ifs <;> simp_all <;> omega
  · by_cases hd : d = 100
    · subst hd
      simp [famKidVerified, streakUpdateSpec, max_def]
      split_ifs <;> simp_all <;> omega
    · by_cases hd2 : (100 : Int) - d = 1
      · have h99 : d = 99 := by omega
        subst h99
        simp [famKidVerified, streakUpdateSpec, max_def]
        split_ifs <;> simp_all <;> omega
      · have h99 : d ≠ 99 := by omega
        simp [famKidVerified, streakUpdateSpec, max_def, hd, hd2, h99]
        split_ifs <;> simp_all <;> omega

theorem verify_famDB_completed (b e cs ls : Int) (lsd : Option Int) (p : Int)
    (mults : List ℚ) :
    verify_chore (famDB b e cs ls lsd p .completed mults) 1 2 100 500
      = .ok (famDB2c b e cs ls lsd p mults) := by
  have hcomp : ((fun e => e.is_active &&
      (decide (e.start_date ≤ (500 : Int)) && decide ((500 : Int) ≤ e.end_date)))
        ∘ famEvent) = fun _ : ℚ => true := by
    funext m; simp [famEvent, Function.comp]
  have hfold : List.foldl (fun x y : ℚ => x * y) 1 mults
      = multiplier_product mults := rfl
  simp [verify_chore, famDB, famAsg, famDB2c, famKidVerified, famBonusTxs,
    famTotal, bonus_amount, famChore, famKid, famEvent, hcomp, hfold,
    List.filter_map, List.filter_true, List.foldl_map]

theorem verify_streak_fam (b e cs ls : Int) (lsd : Option Int) (p : Int)
    (mults : List ℚ) :
    (verify_chore (famDB b e cs ls lsd p .completed mults) 1 2 100 500).map
        userStreakList
      = .ok [streakUpdateSpec cs ls lsd 100] := by
  rw [verify_famDB_completed]
  simp [Except.map, famDB2c, userStreakList, famKidVerified_streak]

theorem eq_of_filter_singleton {α : Type} (p : α → Bool) :
    ∀ (l : List α) (x : α), l.filter p = [x] →
      ∀ u ∈ l, p u = true → u = x := by
  intro l
  induction l with
  | nil => intro x h u hu; cases hu
  | cons y ys ih =>
      intro x h u hu hp
      rw [List.filter_cons] at h
      by_cases hy : p y = true
      · rw [if_pos hy] at h
        injection h with h1 h2
        rcases List.mem_cons.mp hu with rfl | hu2
        · exact h1
        · exact absurd hp (by
            have := List.filter_eq_nil_iff.mp h2 u hu2
            simp [this])
      · rw [if_neg hy] at h
        rcases List.mem_cons.mp hu with rfl | hu2
        · exact absurd hp hy
        · exact ih x h u hu2 hp

theorem map_congr_of_mem {α β : Type} (f g : α → β) :
    ∀ (l : List α), (∀ u ∈ l, f u = g u) → l.map f = l.map g := by
  intro l
  induction l with
  | nil => intro _; rfl
  | cons y ys ih =>
      intro h
      rw [List.map_cons, List.map_cons, h y (List.mem_cons_self y ys),
        ih (fun u hu => h u (List.mem_cons_of_mem _ hu))]

theorem users_complete (db : DB) (c u t n : Int) (fo : Option Int) (d' : DB)
    (h : complete_chore db c u fo t n = .ok d') : d'.users = db.users := by
  unfold complete_chore at h
  repeat' first
    | exact Except.noConfusion h
    | (cases h; rfl)
    | split at h
    | dsimp only at h

theorem users_skip (db : DB) (c t n : Int) (d' : DB)
    (h : skip_chore db c t n = .ok d') : d'.users = db.users := by
  unfold skip_chore at h
  repeat' first
    | exact Except.noConfusion h
    | (cases h; rfl)
    | split at h

theorem forall2_map_of_mem {α β : Type} (R : β → β → Prop) (f g : α → β) :
    ∀ (l : List α), (∀ u ∈ l, R (f u) (g u)) →
      List.Forall₂ R (l.map f) (l.map g) := by
  intro l
  induction l with
  | nil => intro _; exact List.Forall₂.nil
  | cons y ys ih =>
      intro h
      exact List.Forall₂.cons (h y (List.mem_cons_self y ys))
        (ih (fun u hu => h u (List.mem_cons_of_mem _ hu)))

theorem uncomplete_preserves (db : DB) (c t n : Int) (d' : DB)
    (h : uncomplete_chore db c t n = .ok d') :
    userEarnedList d' = userEarnedList db ∧
      userStreakList d' = userStreakList db := by
  unfold uncomplete_chore at h
  split at h
  · exact Except.noConfusion h
  · split at h
    · rename_i xa aa heqA xu kid heqU
      cases h
      have hpk : (kid.id == aa.user_id) = true := by
        have hmem : kid ∈ db.users.filter (fun u => u.id == aa.user_id) := by
          rw [heqU]; exact List.mem_singleton.mpr rfl
        exact (List.mem_filter.mp hmem).2
      constructor
      · simp only [userEarnedList, List.map_map]
        apply map_congr_of_mem
        intro u hu
        simp only [Function.comp]
        by_cases hid : (u.id == kid.id) = true
        · have hpu : (u.id == aa.user_id) = true := by
            have h1 : u.id = kid.id := by simpa using hid
            have h2 : kid.id = aa.user_id := by simpa using hpk
            simp [h1, h2]
          have hq := eq_of_filter_singleton _ db.users kid heqU u hu hpu
          subst hq
          simp [hid]
        · simp [hid]
      · simp only [userStreakList, List.map_map]
        apply map_congr_of_mem
        intro u hu
        simp only [Function.comp]
        by_cases hid : (u.id == kid.id) = true
        · have hpu : (u.id == aa.user_id) = true := by
            have h1 : u.id = kid.id := by simpa using hid
            have h2 : kid.id = aa.user_id := by simpa using hpk
            simp [h1, h2]
          have hq := eq_of_filter_singleton _ db.users kid heqU u hu hpu
          subst hq
          simp [hid]
        · simp [hid]
    · exact Except.noConfusion h
  · exact Except.noConfusion h

theorem verify_earned_mono (db : DB) (c v t n : Int) (d' : DB)
    (hpts : ∀ ch ∈ db.chores, 0 ≤ ch.points)
    (h : verify_chore db c v t n = .ok d') :
    List.Forall₂ (· ≤ ·) (userEarnedList db) (userEarnedList d') := by
  unfold verify_chore at h
  split at h
  · exact Except.noConfusion h
  · split at h
    · split at h
      · rename_i xa aa heqA xc chore heqC xu kid heqU
        cases h
        have hchore : (0 : Int) ≤ chore.points := by
          apply hpts
          have hmem : chore ∈ db.chores.filter (fun x => x.id == c) := by
            rw [heqC]; exact List.mem_singleton.mpr rfl
          exact List.mem_of_mem_filter hmem
        have hpk : (kid.id == aa.user_id) = true := by
          have hmem : kid ∈ db.users.filter (fun u => u.id == aa.user_id) := by
            rw [heqU]; exact List.mem_singleton.mpr rfl
          exact (List.mem_filter.mp hmem).2
        simp only [userEarnedList, List.map_map]
        apply forall2_map_of_mem
        intro u hu
        simp only [Function.comp]
        by_cases hid : (u.id == kid.id) = true
        · have hpu : (u.id == aa.user_id) = true := by
            have h1 : u.id = kid.id := by simpa using hid
            have h2 : kid.id = aa.user_id := by simpa using hpk
            simp [h1, h2]
          have hq := eq_of_filter_singleton _ db.users kid heqU u hu hpu
          subst hq
          simp only [hid, if_true]
          repeat' split
          all_goals
            simp only [List.map_cons, List.map_nil, List.sum_cons,
              List.sum_nil]
          all_goals linarith
        · simp [hid]
      · exact Except.noConfusion h
    · exact Except.noConfusion h
  · exact Except.noConfusion h

/-- C6: `uncomplete` never decreases lifetime earned — it deletes the
award ledger entries and decrements only the clamped balance, leaving
`total_points_earned` exactly unchanged; and across all lifecycle
operations (complete and skip leave earned untouched, verify only adds a
nonnegative award when chore point values are nonnegative, as the create
endpoint validates) `total_points_earned` is monotonically
non-decreasing. -/
theorem lifetime_earned_monotonic
    (db du dv dc ds : DB) (cu cv cc csk verifier completer t n : Int)
    (fo : Option Int)
    (hpts : ∀ ch ∈ db.chores, 0 ≤ ch.points)
    (hu : uncomplete_chore db cu t n = .ok du)
    (hv : verify_chore db cv verifier t n = .ok dv)
    (hc : complete_chore db cc completer fo t n = .ok dc)
    (hs : skip_chore db csk t n = .ok ds) :
    userEarnedList du = userEarnedList db ∧
      List.Forall₂ (· ≤ ·) (userEarnedList db) (userEarnedList dv) ∧
      userEarnedList dc = userEarnedList db ∧
      userEarnedList ds = userEarnedList db :=
  ⟨(uncomplete_preserves db cu t n du hu).1,
   verify_earned_mono db cv verifier t n dv hpts hv,
   by simp [userEarnedList, users_complete db cc completer t n fo dc hc],
   by simp [userEarnedList, users_skip db csk t n ds hs]⟩

/-- C6 witness: on `lifecycleDB` all four operations succeed; undo,
complete and skip leave the earned column unchanged and verify only
raises it. -/
theorem lifetime_earned_monotonic_witness :
    userEarnedList lifecycleDBUndone = userEarnedList lifecycleDB ∧
      List.Forall₂ (· ≤ ·) (userEarnedList lifecycleDB)
        (userEarnedList lifecycleDBVerified) ∧
      userEarnedList lifecycleDBCompleted = userEarnedList lifecycleDB ∧
      userEarnedList lifecycleDBSkipped = userEarnedList lifecycleDB :=
  lifetime_earned_monotonic lifecycleDB lifecycleDBUndone lifecycleDBVerified
    lifecycleDBCompleted lifecycleDBSkipped 1 1 2 2 2 7 100 500 (some 1)
    (by intro ch hch; fin_cases hch <;> decide)
    (by decide) (by decide) (by decide) (by decide)

/-- C8: on verify the streak fields follow exactly the spec's case
analysis — unchanged if last streak date is today, incremented if it was
yesterday, reset to 1 otherwise, date set to today, and the longest
streak raised to the maximum — and no other lifecycle operation
(complete, skip, uncomplete) changes any user's streak fields. -/
theorem verify_streak_update_rule
    (b e cs ls : Int) (lsd : Option Int) (p : Int) (mults : List ℚ)
    (db du dc ds : DB) (cu cc csk completer t n : Int) (fo : Option Int)
    (hu : uncomplete_chore db cu t n = .ok du)
    (hc : complete_chore db cc completer fo t n = .ok dc)
    (hs : skip_chore db csk t n = .ok ds) :
    (verify_chore (famDB b e cs ls lsd p .completed mults) 1 2 100 500).map
        userStreakList
      = .ok [streakUpdateSpec cs ls lsd 100] ∧
      userStreakList dc = userStreakList db ∧
      userStreakList ds = userStreakList db ∧
      userStreakList du = userStreakList db :=
  ⟨verify_streak_fam b e cs ls lsd p mults,
   by simp [userStreakList, users_complete db cc completer t n fo dc hc],
   by simp [userStreakList, users_skip db csk t n ds hs],
   (uncomplete_preserves db cu t n du hu).2⟩

/-- C8 witness: a kid whose last streak date is yesterday (day 99) with
current streak 3; verify on day 100 increments to 4 and raises the
longest streak, while uncomplete, complete and skip on `lifecycleDB`
leave streak fields untouched. -/
theorem verify_streak_update_rule_witness :
    (verify_chore (famDB 0 0 3 3 (some 99) 20 .completed []) 1 2 100 500).map
        userStreakList
      = .ok [streakUpdateSpec 3 3 (some 99) 100] ∧
      userStreakList lifecycleDBCompleted = userStreakList lifecycleDB ∧
      userStreakList lifecycleDBSkipped = userStreakList lifecycleDB ∧
      userStreakList lifecycleDBUndone = userStreakList lifecycleDB :=
  verify_streak_update_rule 0 0 3 3 (some 99) 20 [] lifecycleDB
    lifecycleDBUndone lifecycleDBCompleted lifecycleDBSkipped 1 2 2 7 100 500
    (some 1) (by decide) (by decide) (by decide)

end ChoresOS
